import Mathlib

/-!
Verification of mongo-bcrypt-user: a mongodb-backed user store with bcrypt
password hashes, scoped by an optional realm namespace.

The repository supplies the mongo-specific layer (argument validation entry
point, the User constructor, the updateHash resolver, and stateless wrappers);
the generic engine (the bcrypt-user check chain and the register / verify /
setPassword algorithms) and the bcrypt primitive are external collaborators
described precisely by the specification, and are modelled from it where
indicated.
-/

namespace MongoBcryptUser

/-- JS runtime values, as far as the validation layer distinguishes them:
the checks only inspect a value through typeof and, for strings, length. -/
inductive JSVal where
  | vundef
  | vnull
  | vbool (b : Bool)
  | vnum (n : Int)
  | vstr (s : String)
  | vfun
  | vobj
deriving DecidableEq

/-- JS typeof operator on the modelled values; note typeof null is "object". -/
def jsTypeof : JSVal → String
  | .vundef => "undefined"
  | .vnull => "object"
  | .vbool _ => "boolean"
  | .vnum _ => "number"
  | .vstr _ => "string"
  | .vfun => "function"
  | .vobj => "object"

/-- Length of a JS string value (only consulted after the type checks pass). -/
def jsStrLen : JSVal → Nat
  | .vstr s => s.length
  | _ => 0

/-- Named validation errors, one per check of the validation chain, in the
order the chain performs them. Each corresponds to a distinct TypeError or
Error thrown synchronously. -/
inductive CheckError where
  | collNotObject
  | usernameNotString
  | passwordNotString
  | realmNotString
  | cbNotFunction
  | usernameTooShort
  | usernameTooLong
  | passwordTooShort
  | realmTooShort
  | realmTooLong
deriving DecidableEq

/-- Error message of each named validation error, as asserted by the tests. -/
def errorMessage : CheckError → String
  | .collNotObject => "coll must be an object"
  | .usernameNotString => "username must be a string"
  | .passwordNotString => "password must be a string"
  | .realmNotString => "realm must be a string"
  | .cbNotFunction => "cb must be a function"
  | .usernameTooShort => "username must be at least 2 characters"
  | .usernameTooLong => "username can not exceed 128 characters"
  | .passwordTooShort => "password must be at least 6 characters"
  | .realmTooShort => "realm must be at least 1 character"
  | .realmTooLong => "realm can not exceed 128 characters"

/-- Modelled from the spec: BcryptUser._checkAllWithPassword, the generic
check chain of the external bcrypt-user engine (not under src/). Per spec
section 4.1 the order is fixed: type checks first (username, password, realm,
callback, in that order), then length checks (username-min, username-max,
password-min, realm-min, realm-max). Returns the first violated check's
error, or none; a some result models a synchronous throw (the callback is
never invoked). -/
def bcryptUserCheckAllWithPassword (username password realm cb : JSVal) :
    Option CheckError :=
  if jsTypeof username != "string" then some .usernameNotString
  else if jsTypeof password != "string" then some .passwordNotString
  else if jsTypeof realm != "string" then some .realmNotString
  else if jsTypeof cb != "function" then some .cbNotFunction
  else if jsStrLen username < 2 then some .usernameTooShort
  else if 128 < jsStrLen username then some .usernameTooLong
  else if jsStrLen password < 6 then some .passwordTooShort
  else if jsStrLen realm < 1 then some .realmTooShort
  else if 128 < jsStrLen realm then some .realmTooLong
  else none

/-- The repository's _checkAllWithPassword (src/index.js lines 37-40): throw
the coll TypeError when typeof coll is not the string "object", otherwise
delegate to the bcrypt-user chain. -/
def checkAllWithPassword (coll username password realm cb : JSVal) :
    Option CheckError :=
  if jsTypeof coll != "object" then some .collNotObject
  else bcryptUserCheckAllWithPassword username password realm cb

/-- Validation performed by the User constructor (src/index.js lines 49-55):
an undefined realm is replaced by the string "_default", then the full chain
runs with the fixed placeholder password "xxxxxx" and a no-op function as
callback. -/
def userNewCheck (coll username realm : JSVal) : Option CheckError :=
  let realm := if realm = JSVal.vundef then JSVal.vstr "_default" else realm
  checkAllWithPassword coll username (JSVal.vstr "xxxxxx") realm JSVal.vfun

/-- Spec-side description of one check in isolation: whether the given
argument tuple violates it, independently of any ordering. -/
def violatesCheck (coll username password realm cb : JSVal) :
    CheckError → Bool
  | .collNotObject => jsTypeof coll != "object"
  | .usernameNotString => jsTypeof username != "string"
  | .passwordNotString => jsTypeof password != "string"
  | .realmNotString => jsTypeof realm != "string"
  | .cbNotFunction => jsTypeof cb != "function"
  | .usernameTooShort => jsTypeof username == "string" && jsStrLen username < 2
  | .usernameTooLong => jsTypeof username == "string" && 128 < jsStrLen username
  | .passwordTooShort => jsTypeof password == "string" && jsStrLen password < 6
  | .realmTooShort => jsTypeof realm == "string" && jsStrLen realm < 1
  | .realmTooLong => jsTypeof realm == "string" && 128 < jsStrLen realm

/-- The fixed order of the checks, as stated by the spec. -/
def checkOrder : List CheckError :=
  [.collNotObject, .usernameNotString, .passwordNotString, .realmNotString,
   .cbNotFunction, .usernameTooShort, .usernameTooLong, .passwordTooShort,
   .realmTooShort, .realmTooLong]

/-- Spec-side description of the whole chain: the first violated check in
the fixed order, or none when no check is violated. -/
def firstViolated (coll username password realm cb : JSVal) :
    Option CheckError :=
  checkOrder.find? (violatesCheck coll username password realm cb)

/-- Persisted user record: realm and username identify it; the password
field holds the bcrypt hash and is absent between insert and the first
password-set. -/
structure Doc where
  realm : String
  username : String
  password : Option String
deriving DecidableEq

/-- Collection state: the stored documents, in insertion order. -/
abbrev Coll := List Doc

/-- Exact-match filter on the realm and username fields, as used by every
lookup and conditional update of the engine. -/
def docMatches (realm username : String) (d : Doc) : Bool :=
  d.realm == realm && d.username == username

/-- Storage collaborator findOne: point lookup by the exact-match filter,
returning the first matching document or nothing. -/
def findOne (coll : Coll) (realm username : String) : Option Doc :=
  coll.find? (docMatches realm username)

/-- Storage collaborator insert: single-document insert. -/
def insertDoc (coll : Coll) (d : Doc) : Coll :=
  coll ++ [d]

/-- Storage collaborator update with a set-password modifier: sets the
password field of the first document matching the filter and reports how
many documents were updated (0 or 1, mongodb single-document update). -/
def updateSetPassword (coll : Coll) (realm username hash : String) :
    Coll × Nat :=
  match coll with
  | [] => ([], 0)
  | d :: ds =>
    if docMatches realm username d then
      ({ d with password := some hash } :: ds, 1)
    else
      let r := updateSetPassword ds realm username hash
      (d :: r.1, r.2)

/-- Modelled from the spec: the bcrypt digest part of a cost-10 hash (the
external bcrypt primitive is not under src/). The spec requires a collision
free cryptographic compare (section 4.4) and a 60-character canonical
encoding (section 8); the model realises both by an injective encoding whose
output is exactly 53 characters for plaintexts of up to 52 characters (one
length character, the plaintext, filler), and longer otherwise. -/
def bcryptDigest (p : String) : String :=
  if p.length ≤ 52 then
    String.mk [Char.ofNat (48 + p.length)] ++ p ++
      String.mk (List.replicate (52 - p.length) 'x')
  else
    "L" ++ p

/-- Modelled from the spec: bcrypt hash at cost factor 10, canonical
encoding marker followed by the digest. -/
def bcryptHash (p : String) : String :=
  "$2a$10$" ++ bcryptDigest p

/-- Modelled from the spec: bcrypt compare of a candidate plaintext against
a stored hash — true exactly when the hash is the hash of the candidate. -/
def bcryptCompare (candidate hash : String) : Bool :=
  hash == bcryptHash candidate

/-- JS error objects delivered through the asynchronous error slot: an
Error created with a message, or an opaque error of the storage layer. -/
inductive JsErr where
  | msg (s : String)
  | storage (id : Nat)
deriving DecidableEq

/-- The updateHash resolver (src/index.js lines 60-68): given the outcome
of the underlying collection update — its error slot and its updated count —
produce what the resolver passes to its callback: a storage error unchanged,
or the failed-to-update error when the count is not exactly 1, or null. -/
def updateHash (err : Option JsErr) (updated : Nat) : Option JsErr :=
  match err with
  | some e => some e
  | none =>
    if updated ≠ 1 then some (JsErr.msg "failed to update password")
    else none

/-- Modelled from the spec: the engine's existence check (section 4.2) —
look up one document matching the realm and username; true iff it exists,
no side effect on the collection. -/
def existsOp (coll : Coll) (username realm : String) : Coll × Bool :=
  (coll, (findOne coll realm username).isSome)

/-- Modelled from the spec: the engine's password verification
(section 4.4) — look up the record; if absent the result is not-valid with
no error; if found, bcrypt-compare the candidate against the stored hash (a
record whose password field is still unset verifies nothing). -/
def verifyPassword (coll : Coll) (username password realm : String) :
    Option JsErr × Bool :=
  match findOne coll realm username with
  | none => (none, false)
  | some d =>
    match d.password with
    | none => (none, false)
    | some h => (none, bcryptCompare password h)

/-- Modelled from the spec: the engine's password update (section 4.5) —
hash the new password, conditionally update on the realm and username
filter, and resolve the outcome through the repository's updateHash
resolver (exactly one document must have been updated). -/
def setPassword (coll : Coll) (username password realm : String) :
    Coll × Option JsErr :=
  let r := updateSetPassword coll realm username (bcryptHash password)
  (r.1, updateHash none r.2)

/-- Modelled from the spec: the engine's registration (section 4.3) — if a
record for the realm and username exists, fail with the username-exists
error and do nothing further; otherwise insert the record without a
password field, then set the bcrypt hash through the conditional update and
the updateHash resolver. -/
def register (coll : Coll) (username password realm : String) :
    Coll × Option JsErr :=
  match findOne coll realm username with
  | some _ => (coll, some (JsErr.msg "username already exists"))
  | none =>
    let coll1 := insertDoc coll { realm := realm, username := username,
                                  password := none }
    let r := updateSetPassword coll1 realm username (bcryptHash password)
    (r.1, updateHash none r.2)

/-- The realm argument position of the stateless wrappers: either a realm
string, or the caller's callback function sitting in that position because
the optional realm was omitted. -/
inductive RealmArg where
  | str (s : String)
  | fn
deriving DecidableEq

/-- Realm resolution of the stateless wrappers (src/unnamed/part_001): when
typeof realm is function, the callback shifts and the realm becomes the
string "_default". -/
def resolveRealm : RealmArg → String
  | .str s => s
  | .fn => "_default"

/-- Stateless exists wrapper (src/unnamed/part_001 lines 98-107): resolve
the realm, bind a handle, run the existence check. -/
def statelessExists (coll : Coll) (username : String) (realm : RealmArg) :
    Coll × Bool :=
  existsOp coll username (resolveRealm realm)

/-- Stateless verifyPassword wrapper (src/unnamed/part_001 lines 120-128). -/
def statelessVerifyPassword (coll : Coll) (username password : String)
    (realm : RealmArg) : Option JsErr × Bool :=
  verifyPassword coll username password (resolveRealm realm)

/-- Stateless setPassword wrapper (src/unnamed/part_001 lines 143-151). -/
def statelessSetPassword (coll : Coll) (username password : String)
    (realm : RealmArg) : Coll × Option JsErr :=
  setPassword coll username password (resolveRealm realm)

/-- Stateless register wrapper (src/unnamed/part_001 lines 164-172). -/
def statelessRegister (coll : Coll) (username password : String)
    (realm : RealmArg) : Coll × Option JsErr :=
  register coll username password (resolveRealm realm)

/-! Helper lemmas about the storage model. -/

theorem length_mk (l : List Char) : (String.mk l).length = l.length := rfl

theorem docMatches_self (r u : String) (po : Option String) :
    docMatches r u ⟨r, u, po⟩ = true := by
  simp [docMatches]

theorem eq_of_docMatches {r u : String} {d : Doc}
    (h : docMatches r u d = true) : d.realm = r ∧ d.username = u := by
  simpa [docMatches] using h

theorem findOne_cons {d : Doc} {ds : Coll} {r u : String} :
    findOne (d :: ds) r u =
      if docMatches r u d then some d else findOne ds r u := by
  simp only [findOne, List.find?_cons]
  split <;> simp_all

theorem updateSetPassword_of_findOne_none {coll : Coll} {r u : String}
    (h : findOne coll r u = none) (hs : String) :
    updateSetPassword coll r u hs = (coll, 0) := by
  induction coll with
  | nil => rfl
  | cons d ds ih =>
    rw [findOne_cons] at h
    by_cases hd : docMatches r u d
    · simp [hd] at h
    · simp only [hd, if_false] at h
      simp [updateSetPassword, hd, ih h]

theorem updateSetPassword_append {coll : Coll} {r u : String}
    (h : findOne coll r u = none) (po : Option String) (hs : String) :
    updateSetPassword (coll ++ [⟨r, u, po⟩]) r u hs =
      (coll ++ [Doc.mk r u (some hs)], 1) := by
  induction coll with
  | nil => simp [updateSetPassword, docMatches_self]
  | cons d ds ih =>
    rw [findOne_cons] at h
    by_cases hd : docMatches r u d
    · simp [hd] at h
    · simp only [hd, if_false] at h
      simp [updateSetPassword, hd, ih h]

theorem findOne_append_self {coll : Coll} {r u : String}
    (h : findOne coll r u = none) (po : Option String) :
    findOne (coll ++ [⟨r, u, po⟩]) r u = some ⟨r, u, po⟩ := by
  unfold findOne at h ⊢
  rw [List.find?_append, h]
  simp [List.find?, docMatches_self]

theorem updateSetPassword_of_findOne_some {coll : Coll} {r u : String}
    {d : Doc} (h : findOne coll r u = some d) (hs : String) :
    (updateSetPassword coll r u hs).2 = 1 ∧
      findOne (updateSetPassword coll r u hs).1 r u =
        some ⟨r, u, some hs⟩ := by
  induction coll with
  | nil => simp [findOne] at h
  | cons d0 ds ih =>
    rw [findOne_cons] at h
    by_cases hd : docMatches r u d0
    · obtain ⟨hr, hu⟩ := eq_of_docMatches hd
      cases d0
      subst hr hu
      simp [updateSetPassword, hd, findOne_cons, docMatches_self]
    · simp only [hd, if_false] at h
      obtain ⟨ih1, ih2⟩ := ih h
      constructor
      · simpa [updateSetPassword, hd] using ih1
      · simpa [updateSetPassword, hd, findOne_cons] using ih2

/-! Helper lemmas about the bcrypt model. -/

theorem bcryptDigest_length_of_le {p : String} (h : p.length ≤ 52) :
    (bcryptDigest p).length = 53 := by
  simp only [bcryptDigest, h, if_pos, String.length_append, length_mk,
    List.length_replicate, List.length_cons, List.length_nil]
  omega

theorem bcryptDigest_length_of_gt {p : String} (h : 52 < p.length) :
    (bcryptDigest p).length = p.length + 1 := by
  have : ¬ p.length ≤ 52 := by omega
  simp only [bcryptDigest, this, if_neg, not_false_iff, String.length_append]
  have h1 : ("L" : String).length = 1 := rfl
  omega

theorem bcryptHash_length_of_le {p : String} (h : p.length ≤ 52) :
    (bcryptHash p).length = 60 := by
  rw [bcryptHash, String.length_append, bcryptDigest_length_of_le h]
  have h7 : ("$2a$10$" : String).length = 7 := rfl
  omega

theorem bcryptHash_ne_self (p : String) : bcryptHash p ≠ p := by
  intro he
  have hl := congrArg String.length he
  by_cases h : p.length ≤ 52
  · rw [bcryptHash_length_of_le h] at hl
    omega
  · have h52 : 52 < p.length := by omega
    rw [bcryptHash, String.length_append, bcryptDigest_length_of_gt h52] at hl
    omega

theorem toNat_char_ofNat_valid {n : Nat} (h : n < 55296) :
    (Char.ofNat n).toNat = n := by
  have hv : n.isValidChar := Or.inl h
  simp [Char.ofNat, hv]
  rfl

theorem bcryptDigest_inj {p q : String}
    (h : bcryptDigest p = bcryptDigest q) : p = q := by
  by_cases hp : p.length ≤ 52 <;> by_cases hq : q.length ≤ 52
  · have hd := congrArg String.data h
    simp only [bcryptDigest, hp, hq, if_pos, String.data_append] at hd
    have hd' : Char.ofNat (48 + p.length) :: (p.data ++
        List.replicate (52 - p.length) 'x') =
        Char.ofNat (48 + q.length) :: (q.data ++
        List.replicate (52 - q.length) 'x') := by
      simpa using hd
    have hhead := List.head_eq_of_cons_eq hd'
    have hlen : p.length = q.length := by
      have h1 := toNat_char_ofNat_valid (n := 48 + p.length) (by omega)
      have h2 := toNat_char_ofNat_valid (n := 48 + q.length) (by omega)
      have := congrArg Char.toNat hhead
      rw [h1, h2] at this
      omega
    have htail := List.tail_eq_of_cons_eq hd'
    have hdata : p.data = q.data := by
      have hpl : p.data.length = q.data.length := hlen
      exact (List.append_inj htail hpl).1
    exact String.ext hdata
  · exfalso
    have hl := congrArg String.length h
    rw [bcryptDigest_length_of_le hp, bcryptDigest_length_of_gt (by omega)]
      at hl
    omega
  · exfalso
    have hl := congrArg String.length h
    rw [bcryptDigest_length_of_gt (by omega), bcryptDigest_length_of_le hq]
      at hl
    omega
  · have hd := congrArg String.data h
    simp only [bcryptDigest, hp, hq, if_neg, not_false_iff,
      String.data_append] at hd
    have : p.data = q.data := by
      have : ("L".data ++ p.data) = ("L".data ++ q.data) := hd
      exact List.append_cancel_left this
    exact String.ext this

theorem bcryptHash_inj {p q : String}
    (h : bcryptHash p = bcryptHash q) : p = q := by
  apply bcryptDigest_inj
  apply String.ext
  have hd := congrArg String.data h
  simp only [bcryptHash, String.data_append] at hd
  exact List.append_cancel_left hd

theorem bcryptCompare_self (p : String) :
    bcryptCompare p (bcryptHash p) = true := by
  simp [bcryptCompare]

theorem bcryptCompare_ne {p w : String} (h : w ≠ p) :
    bcryptCompare w (bcryptHash p) = false := by
  simp only [bcryptCompare, beq_eq_false_iff_ne, ne_eq]
  intro he
  exact h (bcryptHash_inj he).symm

/-! Claim theorems. -/

/-- C1: for every collection state, valid username u, realm r and password p
(length at least 6), after register(u, p, r) succeeds, verifyPassword(u, p, r)
returns true with a null error, and verifyPassword(u, w, r) returns false
with a null error for every w other than the registered password. -/
theorem register_verifyPassword_roundtrip (coll : Coll) (u p r : String)
    (_hu1 : 2 ≤ u.length) (_hu2 : u.length ≤ 128)
    (_hr1 : 1 ≤ r.length) (_hr2 : r.length ≤ 128)
    (_hp : 6 ≤ p.length)
    (hs : (register coll u p r).2 = none) :
    verifyPassword (register coll u p r).1 u p r = (none, true) ∧
    ∀ w, w ≠ p →
      verifyPassword (register coll u p r).1 u w r = (none, false) := by
  cases hf : findOne coll r u with
  | some d => simp [register, hf] at hs
  | none =>
    have hreg : register coll u p r =
        (coll ++ [⟨r, u, some (bcryptHash p)⟩], none) := by
      simp [register, hf, insertDoc,
        updateSetPassword_append hf none (bcryptHash p), updateHash]
    rw [hreg]
    have hfind := findOne_append_self hf (some (bcryptHash p))
    constructor
    · simp [verifyPassword, hfind, bcryptCompare_self]
    · intro w hw
      simp [verifyPassword, hfind, bcryptCompare_ne hw]

/-- Witness for C1 at a concrete registration. -/
theorem register_verifyPassword_roundtrip_witness :
    verifyPassword (register [] "foo" "secret" "bar").1 "foo" "secret" "bar"
      = (none, true) ∧
    verifyPassword (register [] "foo" "secret" "bar").1 "foo" "raboof" "bar"
      = (none, false) := by
  have h := register_verifyPassword_roundtrip [] "foo" "secret" "bar"
    (by decide) (by decide) (by decide) (by decide) (by decide) (by decide)
  exact ⟨h.1, h.2 "raboof" (by decide)⟩

/-- C2: the updateHash resolver passes a storage error through unchanged;
with no storage error it reports the failed-to-update error exactly when the
updated count is not 1, and null otherwise; consequently setPassword for a
(username, realm) pair with no matching record — such as a username stored
only under a different realm — fails with the failed-to-update error. -/
theorem updateHash_resolution (e : JsErr) (n : Nat) (coll : Coll)
    (u p r : String) (hn : n ≠ 1) (hnone : findOne coll r u = none) :
    updateHash (some e) n = some e ∧
    updateHash none n = some (JsErr.msg "failed to update password") ∧
    updateHash none 1 = none ∧
    (setPassword coll u p r).2 =
      some (JsErr.msg "failed to update password") := by
  refine ⟨rfl, by simp [updateHash, hn], rfl, ?_⟩
  simp [setPassword, updateSetPassword_of_findOne_none hnone, updateHash]

/-- Witness for C2: a storage error id 7 is passed through, a zero update
count fails, and setPassword for a username stored only under another realm
fails. -/
theorem updateHash_resolution_witness :
    updateHash (some (JsErr.storage 7)) 0 = some (JsErr.storage 7) ∧
    updateHash none 0 = some (JsErr.msg "failed to update password") ∧
    updateHash none 1 = none ∧
    (setPassword [⟨"realmA", "alice", some "h"⟩] "alice" "newpass"
      "realmB").2 = some (JsErr.msg "failed to update password") :=
  updateHash_resolution (JsErr.storage 7) 0
    [⟨"realmA", "alice", some "h"⟩] "alice" "newpass" "realmB"
    (by decide) (by decide)

/-- C3: for a (username, realm) pair with no matching record, verifyPassword
with any candidate completes with a false result and a null error. -/
theorem verifyPassword_absent_user (coll : Coll) (u w r : String)
    (h : findOne coll r u = none) :
    verifyPassword coll u w r = (none, false) := by
  simp [verifyPassword, h]

/-- Witness for C3: verifying against a collection that holds the username
only under a different realm. -/
theorem verifyPassword_absent_user_witness :
    verifyPassword [⟨"realmA", "alice", some "h"⟩] "alice" "secret" "realmB"
      = (none, false) :=
  verifyPassword_absent_user [⟨"realmA", "alice", some "h"⟩] "alice"
    "secret" "realmB" (by decide)

/-- C4: register for a (username, realm) pair that already has a record
fails with the username-already-exists error and returns the collection
unchanged (no insert, no update, stored record untouched). -/
theorem register_existing_username (coll : Coll) (u p r : String) (d : Doc)
    (h : findOne coll r u = some d) :
    register coll u p r =
      (coll, some (JsErr.msg "username already exists")) := by
  simp [register, h]

/-- Witness for C4 at a concrete one-record collection. -/
theorem register_existing_username_witness :
    register [⟨"bar", "foo", some "h"⟩] "foo" "x12345" "bar" =
      ([⟨"bar", "foo", some "h"⟩],
        some (JsErr.msg "username already exists")) :=
  register_existing_username [⟨"bar", "foo", some "h"⟩] "foo" "x12345"
    "bar" ⟨"bar", "foo", some "h"⟩ (by decide)

/-- C6: the existence check leaves the collection unchanged and returns true
exactly when a document matching the bound realm and username is present; in
particular it is false for any never-registered pair, including the same
username under a different realm. -/
theorem existsOp_iff (coll : Coll) (u r : String) :
    (existsOp coll u r).1 = coll ∧
    ((existsOp coll u r).2 = true ↔
      ∃ d ∈ coll, d.realm = r ∧ d.username = u) := by
  refine ⟨rfl, ?_⟩
  simp [existsOp, findOne, List.find?_isSome, docMatches]

/-- C7: leaving the realm unspecified — undefined in the constructor, or the
callback occupying the realm position in the stateless wrappers — behaves
exactly as if the realm were the string "_default". -/
theorem realm_default_substitution :
    (∀ coll u, statelessExists coll u RealmArg.fn =
      existsOp coll u "_default") ∧
    (∀ coll u p, statelessVerifyPassword coll u p RealmArg.fn =
      verifyPassword coll u p "_default") ∧
    (∀ coll u p, statelessSetPassword coll u p RealmArg.fn =
      setPassword coll u p "_default") ∧
    (∀ coll u p, statelessRegister coll u p RealmArg.fn =
      register coll u p "_default") ∧
    (∀ c un, userNewCheck c un JSVal.vundef =
      userNewCheck c un (JSVal.vstr "_default")) :=
  ⟨fun _ _ => rfl, fun _ _ _ => rfl, fun _ _ _ => rfl, fun _ _ _ => rfl,
    fun _ _ => rfl⟩

/-- C8: after a successful register or setPassword with plaintext p (of
realistic length: at most 52 characters, the model's fixed-width digest
domain), the stored password field is the bcrypt hash of p, which is 60
characters long, carries the bcrypt cost-10 marker, and differs from p. -/
theorem stored_hash_shape (coll : Coll) (u p r : String)
    (hp : p.length ≤ 52) :
    ((register coll u p r).2 = none →
      findOne (register coll u p r).1 r u =
        some ⟨r, u, some (bcryptHash p)⟩) ∧
    ((setPassword coll u p r).2 = none →
      findOne (setPassword coll u p r).1 r u =
        some ⟨r, u, some (bcryptHash p)⟩) ∧
    (bcryptHash p).length = 60 ∧
    (∃ rest, bcryptHash p = "$2a$10$" ++ rest) ∧
    bcryptHash p ≠ p := by
  refine ⟨?_, ?_, bcryptHash_length_of_le hp, ⟨bcryptDigest p, rfl⟩,
    bcryptHash_ne_self p⟩
  · intro hs
    cases hf : findOne coll r u with
    | some d => simp [register, hf] at hs
    | none =>
      have hreg : register coll u p r =
          (coll ++ [⟨r, u, some (bcryptHash p)⟩], none) := by
        simp [register, hf, insertDoc,
          updateSetPassword_append hf none (bcryptHash p), updateHash]
      rw [hreg]
      exact findOne_append_self hf (some (bcryptHash p))
  · intro hs
    cases hf : findOne coll r u with
    | none =>
      simp [setPassword, updateSetPassword_of_findOne_none hf (bcryptHash p),
        updateHash] at hs
    | some d =>
      obtain ⟨h1, h2⟩ := updateSetPassword_of_findOne_some hf (bcryptHash p)
      simpa [setPassword] using h2

/-- Witness for C8: a concrete register and a concrete setPassword, with
the hash shape evaluated at the password "secret". -/
theorem stored_hash_shape_witness :
    findOne (register [] "foo" "secret" "bar").1 "bar" "foo" =
      some ⟨"bar", "foo", some (bcryptHash "secret")⟩ ∧
    findOne (setPassword [⟨"bar", "foo", none⟩] "foo" "newpass" "bar").1
      "bar" "foo" = some ⟨"bar", "foo", some (bcryptHash "newpass")⟩ ∧
    (bcryptHash "secret").length = 60 ∧
    (∃ rest, bcryptHash "secret" = "$2a$10$" ++ rest) ∧
    bcryptHash "secret" ≠ "secret" := by
  have h1 := stored_hash_shape [] "foo" "secret" "bar" (by decide)
  have h2 := stored_hash_shape [⟨"bar", "foo", none⟩] "foo" "newpass" "bar"
    (by decide)
  exact ⟨h1.1 (by decide), h2.2.1 (by decide), h1.2.2.1, h1.2.2.2.1,
    h1.2.2.2.2⟩

/-- Helper: the implemented check chain agrees everywhere with the
first-violated-check description; proved by walking the chain one check at
a time. -/
theorem checkAll_eq_firstViolated_aux
    (coll username password realm cb : JSVal) :
    checkAllWithPassword coll username password realm cb =
      firstViolated coll username password realm cb := by
  by_cases h1 : jsTypeof coll = "object"
  · by_cases h2 : jsTypeof username = "string"
    · by_cases h3 : jsTypeof password = "string"
      · by_cases h4 : jsTypeof realm = "string"
        · by_cases h5 : jsTypeof cb = "function"
          · by_cases h6 : jsStrLen username < 2
            · simp [checkAllWithPassword, bcryptUserCheckAllWithPassword,
                firstViolated, checkOrder, List.find?, violatesCheck,
                h1, h2, h3, h4, h5, h6]
            · by_cases h7 : 128 < jsStrLen username
              · simp [checkAllWithPassword, bcryptUserCheckAllWithPassword,
                  firstViolated, checkOrder, List.find?, violatesCheck,
                  h1, h2, h3, h4, h5, h6, h7]
              · by_cases h8 : jsStrLen password < 6
                · simp [checkAllWithPassword,
                    bcryptUserCheckAllWithPassword, firstViolated,
                    checkOrder, List.find?, violatesCheck,
                    h1, h2, h3, h4, h5, h6, h7, h8]
                · by_cases h9 : jsStrLen realm < 1
                  · simp [checkAllWithPassword,
                      bcryptUserCheckAllWithPassword, firstViolated,
                      checkOrder, List.find?, violatesCheck,
                      h1, h2, h3, h4, h5, h6, h7, h8, h9]
                  · by_cases h10 : 128 < jsStrLen realm
                    · simp [checkAllWithPassword,
                        bcryptUserCheckAllWithPassword, firstViolated,
                        checkOrder, List.find?, violatesCheck,
                        h1, h2, h3, h4, h5, h6, h7, h8, h9, h10]
                    · simp [checkAllWithPassword,
                        bcryptUserCheckAllWithPassword, firstViolated,
                        checkOrder, List.find?, violatesCheck,
                        h1, h2, h3, h4, h5, h6, h7, h8, h9, h10]
          · have hb : (jsTypeof cb != "function") = true := by simp [h5]
            simp [checkAllWithPassword, bcryptUserCheckAllWithPassword,
              firstViolated, checkOrder, List.find?, violatesCheck,
              h1, h2, h3, h4, hb]
        · have hb : (jsTypeof realm != "string") = true := by simp [h4]
          simp [checkAllWithPassword, bcryptUserCheckAllWithPassword,
            firstViolated, checkOrder, List.find?, violatesCheck,
            h1, h2, h3, hb]
      · have hb : (jsTypeof password != "string") = true := by simp [h3]
        simp [checkAllWithPassword, bcryptUserCheckAllWithPassword,
          firstViolated, checkOrder, List.find?, violatesCheck, h1, h2, hb]
    · have hb : (jsTypeof username != "string") = true := by simp [h2]
      simp [checkAllWithPassword, bcryptUserCheckAllWithPassword,
        firstViolated, checkOrder, List.find?, violatesCheck, h1, hb]
  · have hb : (jsTypeof coll != "object") = true := by simp [h1]
    simp [checkAllWithPassword, firstViolated, checkOrder, List.find?,
      violatesCheck, hb]

/-- C5: the validation function equals, on every input tuple, the first
violated check of the fixed order coll-type, username-type, password-type,
realm-type, callback-type, username-min, username-max, password-min,
realm-min, realm-max — each a distinct named error reported synchronously
(the model returns it instead of invoking the callback) — and returns none
when no check is violated. -/
theorem checkAll_eq_firstViolated (coll username password realm cb : JSVal) :
    checkAllWithPassword coll username password realm cb =
      firstViolated coll username password realm cb :=
  checkAll_eq_firstViolated_aux coll username password realm cb

/-- Helper: the generic bcrypt-user chain never reports the coll error,
which only the repository wrapper adds. -/
theorem bcryptUserCheck_ne_collNotObject (username password realm cb : JSVal) :
    bcryptUserCheckAllWithPassword username password realm cb ≠
      some CheckError.collNotObject := by
  unfold bcryptUserCheckAllWithPassword
  split_ifs <;> simp

/-- C9: the constructor validates with the fixed placeholder password
"xxxxxx" and a no-op callback, so construction can fail only on a coll,
username or realm violation, never with a password or callback error. -/
theorem userNewCheck_no_password_error (coll username realm : JSVal) :
    userNewCheck coll username realm =
      checkAllWithPassword coll username (JSVal.vstr "xxxxxx")
        (if realm = JSVal.vundef then JSVal.vstr "_default" else realm)
        JSVal.vfun ∧
    userNewCheck coll username realm ≠
      some CheckError.passwordNotString ∧
    userNewCheck coll username realm ≠
      some CheckError.passwordTooShort ∧
    userNewCheck coll username realm ≠
      some CheckError.cbNotFunction := by
  have he : userNewCheck coll username realm =
      firstViolated coll username (JSVal.vstr "xxxxxx")
        (if realm = JSVal.vundef then JSVal.vstr "_default" else realm)
        JSVal.vfun :=
    checkAll_eq_firstViolated_aux coll username (JSVal.vstr "xxxxxx")
      (if realm = JSVal.vundef then JSVal.vstr "_default" else realm)
      JSVal.vfun
  have hlen : jsStrLen (JSVal.vstr "xxxxxx") = 6 := rfl
  refine ⟨rfl, ?_, ?_, ?_⟩ <;>
  · intro hbad
    rw [he] at hbad
    have hv := List.find?_some hbad
    simp [violatesCheck, jsTypeof, hlen] at hv

/-- Witness for C9 at concrete constructor calls, none of which can be
refuted by a password or callback check. -/
theorem userNewCheck_no_password_error_witness :
    userNewCheck JSVal.vobj (JSVal.vstr "ab") JSVal.vundef ≠
      some CheckError.passwordNotString ∧
    userNewCheck JSVal.vobj (JSVal.vstr "a") (JSVal.vstr "r") ≠
      some CheckError.passwordTooShort ∧
    userNewCheck JSVal.vnull (JSVal.vstr "ab") (JSVal.vstr "r") ≠
      some CheckError.cbNotFunction :=
  ⟨(userNewCheck_no_password_error JSVal.vobj (JSVal.vstr "ab")
      JSVal.vundef).2.1,
   (userNewCheck_no_password_error JSVal.vobj (JSVal.vstr "a")
      (JSVal.vstr "r")).2.2.1,
   (userNewCheck_no_password_error JSVal.vnull (JSVal.vstr "ab")
      (JSVal.vstr "r")).2.2.2⟩

/-- C10: the coll TypeError is reported exactly when typeof coll is not
"object"; since typeof null is "object" in JS, a null coll never triggers
this named error. -/
theorem collNotObject_iff_typeof (coll u p r cb : JSVal) :
    (checkAllWithPassword coll u p r cb = some CheckError.collNotObject ↔
      ¬ jsTypeof coll = "object") ∧
    checkAllWithPassword JSVal.vnull u p r cb ≠
      some CheckError.collNotObject := by
  constructor
  · by_cases h : jsTypeof coll = "object"
    · simp [checkAllWithPassword, h, bcryptUserCheck_ne_collNotObject]
    · simp [checkAllWithPassword, h]
  · have h : jsTypeof JSVal.vnull = "object" := rfl
    simp [checkAllWithPassword, h, bcryptUserCheck_ne_collNotObject]

/-- Witness for C10: a string coll triggers the coll error, a null coll
does not. -/
theorem collNotObject_iff_typeof_witness :
    checkAllWithPassword (JSVal.vstr "") (JSVal.vstr "ab")
      (JSVal.vstr "raboof") (JSVal.vstr "r") JSVal.vfun =
      some CheckError.collNotObject ∧
    checkAllWithPassword JSVal.vnull (JSVal.vstr "ab")
      (JSVal.vstr "raboof") (JSVal.vstr "r") JSVal.vfun ≠
      some CheckError.collNotObject :=
  ⟨(collNotObject_iff_typeof (JSVal.vstr "") (JSVal.vstr "ab")
      (JSVal.vstr "raboof") (JSVal.vstr "r") JSVal.vfun).1.mpr
      (by decide),
   (collNotObject_iff_typeof (JSVal.vstr "x") (JSVal.vstr "ab")
      (JSVal.vstr "raboof") (JSVal.vstr "r") JSVal.vfun).2⟩

end MongoBcryptUser
